import Mathlib

/-!
Verification of the TaskExecutionAbciApp rounds
(`packages/valory/skills/task_execution_abci/rounds.py`).

The round collects one payload per participant, classifies each payload as
the error sentinel or an ok result envelope, and decides on one of the
events DONE / ERROR / NO_MAJORITY, or stays pending.  We embed the payload
contents, the collection ledger, the synchronized-data snapshot, the
`end_block` decision procedure and the application transition table, and
prove the behavioural properties of the round.
-/

set_option maxRecDepth 4000

namespace TaskExecutionAbci

/-- The events of `TaskExecutionAbciApp` (the Python `Event` enum). -/
inductive Event where
  | ROUND_TIMEOUT
  | NO_MAJORITY
  | DONE
  | ERROR
deriving DecidableEq

/-- A payload content string, abstracted by its behaviour under the two
operations the round performs on it: comparison with the error sentinel
`"error"`, and `json.loads(...)["request_id"]` / `json.loads(...)["task_result"]`.
`errorSentinel` is the reserved string `"error"`; `json rid tr` is any other
string that parses as a JSON object, where `rid`/`tr` record whether the
`request_id` / `task_result` keys are present and with which value;
`invalid` is any other string, on which `json.loads` raises. -/
inductive Content where
  | errorSentinel
  | json (request_id : Option String) (task_result : Option String)
  | invalid
deriving DecidableEq

/-- `json.loads(content)["request_id"]`: `some` value when the content is a
JSON object carrying the key, `none` when the access raises
(`JSONDecodeError` or `KeyError`). -/
def loadsRequestId : Content → Option String
  | Content.json (some rid) _ => some rid
  | _ => none

/-- `json.loads(content)["task_result"]`: `some` value when the content is a
JSON object carrying the key, `none` when the access raises. -/
def loadsTaskResult : Content → Option String
  | Content.json _ (some tr) => some tr
  | _ => none

/-- `TaskExecutionAbciPayload`: the payload submitted by one participant;
only its `content` string is consulted by the round. -/
structure TaskExecutionAbciPayload where
  content : Content
deriving DecidableEq

/-- The `finished_task_data` record written by the success path:
`{"request_id": ..., "task_result": [...]}`. -/
structure FinishedTaskData where
  request_id : String
  task_result : List String
deriving DecidableEq

/-- The synchronized-data snapshot (`SynchronizedData` over the replicated
db).  `nb_participants` and `max_participants` are the two participant-count
properties the code reads; `finished_task_data` is the key written by the
success path (absent until then, matching `get_strict` failing before it is
set); `other_data` stands for every other key of the replicated db, which
this round never touches. -/
structure SynchronizedData where
  nb_participants : Nat
  max_participants : Nat
  finished_task_data : Option FinishedTaskData
  other_data : List (String × String)
deriving DecidableEq

/-- Modelled from the spec: the framework `update` on the snapshot store is a
copy-on-write update — it "produces a new snapshot value derived from the old
one plus one new field, never mutating in place".  Here the one field is
`finished_task_data`. -/
def SynchronizedData.update (s : SynchronizedData) (d : FinishedTaskData) :
    SynchronizedData :=
  { s with finished_task_data := some d }

/-- The `ERROR_PAYLOAD` sentinel constant of `TaskExecutionRound`
(the string `"error"`). -/
def ERROR_PAYLOAD : Content := Content.errorSentinel

/-- The state of a `TaskExecutionRound` instance at one evaluation of
`end_block`: the collection ledger (an insertion-ordered mapping from sender
identity to payload — Python dicts preserve insertion order), the current
synchronized data, and the value of the inherited majority-feasibility
predicate on this collection.  Modelled from the spec:
`is_majority_possible` lives in the round framework outside these sources;
the spec specifies only its role ("true iff ... a majority outcome remains
achievable"), so we carry its value on this ledger as an abstract boolean
determined by the collection and the participant count. -/
structure TaskExecutionRound where
  collection : List (String × TaskExecutionAbciPayload)
  synchronized_data : SynchronizedData
  is_majority_possible : Bool
deriving DecidableEq

/-- Modelled from the spec: the inherited `collection_threshold_reached`
property — "true iff `len(ledger) == nb_participants`" (a collect-until-all
policy). -/
def collectionThresholdReached (r : TaskExecutionRound) : Bool :=
  r.collection.length == r.synchronized_data.nb_participants

/-- The error-counting half of the `end_block` classification loop:
`num_errors` is the number of collected payloads whose content equals the
error sentinel. -/
def numErrors (c : List (String × TaskExecutionAbciPayload)) : Nat :=
  (c.filter (fun sp => sp.2.content == ERROR_PAYLOAD)).length

/-- The other half of the classification loop: `ok_payloads` keeps, in
ledger insertion order, every entry whose content is not the error
sentinel. -/
def okPayloads (c : List (String × TaskExecutionAbciPayload)) :
    List (String × TaskExecutionAbciPayload) :=
  c.filter (fun sp => !(sp.2.content == ERROR_PAYLOAD))

/-- The Python list comprehension
`[json.loads(f.content)["task_result"] for f in ok_payloads.values()]`:
decodes each entry in order, raising (here: `none`) on the first entry whose
`task_result` access fails. -/
def collectTaskResults : List (String × TaskExecutionAbciPayload) →
    Option (List String)
  | [] => some []
  | sp :: rest =>
    match loadsTaskResult sp.2.content, collectTaskResults rest with
    | some tr, some trs => some (tr :: trs)
    | _, _ => none

/-- The exceptions `end_block` can raise: `indexError` from
`list(ok_payloads)[0]` on an empty mapping, `keyOrDecodeError` from
`json.loads`/key access on a payload content. -/
inductive RoundError where
  | indexError
  | keyOrDecodeError
deriving DecidableEq

/-- `TaskExecutionRound.end_block`.  Returns `none` (Python `None`) when the
round stays pending, `some (snapshot, event)` when it resolves, and an
exception when the aggregation code raises.
Mirrors the source: if the collection threshold is reached, partition the
collection into error payloads and ok payloads; if `num_errors` equals
`max_participants` return the snapshot unchanged with `ERROR`; otherwise
build `payloads_json` from the first ok payload's `request_id` and all ok
payloads' `task_result` fields (in ledger order), write it into
`finished_task_data` via `update`, and return `DONE`.  If the threshold is
not reached, return `NO_MAJORITY` when a majority is no longer possible,
else `None`. -/
def endBlock (r : TaskExecutionRound) :
    Except RoundError (Option (SynchronizedData × Event)) :=
  if collectionThresholdReached r then
    if numErrors r.collection == r.synchronized_data.max_participants then
      Except.ok (some (r.synchronized_data, Event.ERROR))
    else
      match okPayloads r.collection with
      | [] => Except.error RoundError.indexError
      | first :: _ =>
        match loadsRequestId first.2.content with
        | none => Except.error RoundError.keyOrDecodeError
        | some rid =>
          match collectTaskResults (okPayloads r.collection) with
          | none => Except.error RoundError.keyOrDecodeError
          | some trs =>
            Except.ok
              (some (r.synchronized_data.update
                { request_id := rid, task_result := trs }, Event.DONE))
  else
    if !r.is_majority_possible then
      Except.ok (some (r.synchronized_data, Event.NO_MAJORITY))
    else
      Except.ok none

/-- The rounds of the application graph: the collection round and the two
degenerate terminal rounds. -/
inductive AppState where
  | taskExecutionRound
  | finishedTaskExecutionRound
  | finishedTaskExecutionWithErrorRound
deriving DecidableEq

/-- `TaskExecutionAbciApp.transition_function`: the static table mapping
(current round, event) to the next round; pairs absent from the table map to
`none`. -/
def transitionFunction : AppState → Event → Option AppState
  | AppState.taskExecutionRound, Event.DONE =>
      some AppState.finishedTaskExecutionRound
  | AppState.taskExecutionRound, Event.NO_MAJORITY =>
      some AppState.taskExecutionRound
  | AppState.taskExecutionRound, Event.ROUND_TIMEOUT =>
      some AppState.taskExecutionRound
  | AppState.taskExecutionRound, Event.ERROR =>
      some AppState.finishedTaskExecutionWithErrorRound
  | _, _ => none

/-- `TaskExecutionAbciApp.initial_round_cls`. -/
def initialRoundCls : AppState := AppState.taskExecutionRound

/-- `TaskExecutionAbciApp.initial_states`. -/
def initialStates : List AppState := [AppState.taskExecutionRound]

/-- `TaskExecutionAbciApp.final_states`. -/
def finalStates : List AppState :=
  [AppState.finishedTaskExecutionRound,
   AppState.finishedTaskExecutionWithErrorRound]

/-- `TaskExecutionAbciApp.event_to_timeout`: the empty table. -/
def eventToTimeout : List (Event × Nat) := []

/-! ### Helper lemmas -/

/-- The classification loop partitions the collection: error entries and ok
entries together account for every collected payload. -/
theorem numErrors_add_okPayloads_length
    (c : List (String × TaskExecutionAbciPayload)) :
    numErrors c + (okPayloads c).length = c.length := by
  induction c with
  | nil => rfl
  | cons sp rest ih =>
    by_cases h : sp.2.content = ERROR_PAYLOAD <;>
      simp [numErrors, okPayloads, List.filter_cons, h] at * <;> omega

/-- Decoding the ok payloads' `task_result` fields yields one result per ok
payload. -/
theorem collectTaskResults_length
    (l : List (String × TaskExecutionAbciPayload)) (trs : List String)
    (h : collectTaskResults l = some trs) : trs.length = l.length := by
  induction l generalizing trs with
  | nil => simp [collectTaskResults] at h; simp [← h]
  | cons sp rest ih =>
    unfold collectTaskResults at h
    cases htr : loadsTaskResult sp.2.content with
    | none => rw [htr] at h; simp at h
    | some tr =>
      cases hrest : collectTaskResults rest with
      | none => rw [htr, hrest] at h; simp at h
      | some trs' =>
        rw [htr, hrest] at h
        simp at h
        simp [← h, ih trs' hrest]

/-- If some ok payload's `task_result` access fails, the whole comprehension
fails. -/
theorem collectTaskResults_none_of_mem
    (l : List (String × TaskExecutionAbciPayload))
    (sp : String × TaskExecutionAbciPayload) (hmem : sp ∈ l)
    (hfail : loadsTaskResult sp.2.content = none) :
    collectTaskResults l = none := by
  induction l with
  | nil => cases hmem
  | cons hd rest ih =>
    unfold collectTaskResults
    rcases List.mem_cons.mp hmem with heq | hmem'
    · subst heq; rw [hfail]
    · cases htr : loadsTaskResult hd.2.content with
      | none => rfl
      | some tr => rw [ih hmem']

/-- When every collected payload is the error sentinel, the ok-payload
mapping is empty. -/
theorem okPayloads_eq_nil_of_all_error
    (c : List (String × TaskExecutionAbciPayload))
    (h : ∀ sp ∈ c, sp.2.content = ERROR_PAYLOAD) : okPayloads c = [] := by
  simp [okPayloads, List.filter_eq_nil_iff]
  exact fun a b hab => h (a, b) hab

/-- When some collected payload differs from the error sentinel, the
ok-payload mapping is nonempty. -/
theorem okPayloads_ne_nil_of_exists_ok
    (c : List (String × TaskExecutionAbciPayload))
    (sp : String × TaskExecutionAbciPayload) (hmem : sp ∈ c)
    (h : sp.2.content ≠ ERROR_PAYLOAD) : okPayloads c ≠ [] := by
  intro hnil
  have : sp ∈ okPayloads c := by
    simp [okPayloads, List.mem_filter]
    exact ⟨hmem, h⟩
  rw [hnil] at this
  cases this

/-- Case analysis on a resolving evaluation: `end_block` only ever returns
the `ERROR`, `NO_MAJORITY` or `DONE` events; the snapshot it returns is the
input snapshot unchanged for the first two and an `update` of it for
`DONE`. -/
theorem endBlock_ok_cases (r : TaskExecutionRound) (sd : SynchronizedData)
    (ev : Event) (h : endBlock r = Except.ok (some (sd, ev))) :
    (ev = Event.ERROR ∧ sd = r.synchronized_data) ∨
    (ev = Event.NO_MAJORITY ∧ sd = r.synchronized_data) ∨
    (ev = Event.DONE ∧ ∃ d, sd = r.synchronized_data.update d) := by
  unfold endBlock at h
  split at h
  · split at h
    · simp at h
      exact Or.inl ⟨h.2.symm, h.1.symm⟩
    · split at h
      · cases h
      · split at h
        · cases h
        · split at h
          · cases h
          · simp at h
            exact Or.inr (Or.inr ⟨h.2.symm, _, h.1.symm⟩)
  · split at h
    · simp at h
      exact Or.inr (Or.inl ⟨h.2.symm, h.1.symm⟩)
    · simp at h

/-! ### Claims -/

/-- C1: when the threshold is reached (every participant has submitted) and
the number of error-sentinel payloads equals the total participant count
(`nb_participants`, which by the data model is the same participant-set size
as `max_participants`), `end_block` returns the `ERROR` event with the
synchronized-data snapshot unchanged; this unanimous-failure path takes
precedence over success aggregation. -/
theorem c1_unanimous_error (r : TaskExecutionRound)
    (hth : collectionThresholdReached r = true)
    (herr : numErrors r.collection = r.synchronized_data.nb_participants)
    (hpc : r.synchronized_data.nb_participants =
      r.synchronized_data.max_participants) :
    endBlock r = Except.ok (some (r.synchronized_data, Event.ERROR)) := by
  have hmax : numErrors r.collection = r.synchronized_data.max_participants :=
    herr.trans hpc
  simp [endBlock, hth, hmax]

/-- Witness for C1: a single participant submitting the error sentinel. -/
theorem c1_unanimous_error_witness :
    endBlock
      { collection := [("a", { content := Content.errorSentinel })],
        synchronized_data :=
          { nb_participants := 1, max_participants := 1,
            finished_task_data := none, other_data := [] },
        is_majority_possible := true } =
      Except.ok
        (some
          ({ nb_participants := 1, max_participants := 1,
             finished_task_data := none, other_data := [] },
           Event.ERROR)) :=
  c1_unanimous_error _ (by decide) (by decide) rfl

/-- C2: when the threshold is reached and the number of error-sentinel
payloads is strictly between 0 and `nb_participants` (equal to
`max_participants` by the data model), `end_block` returns `DONE` with a
snapshot whose `finished_task_data` holds the `request_id` decoded from the
first-encountered non-error payload and the list of each non-error payload's
decoded `task_result` in ledger insertion order; the list's length equals
`nb_participants` minus the number of errors. -/
theorem c2_partial_success (r : TaskExecutionRound)
    (hth : collectionThresholdReached r = true)
    (hpc : r.synchronized_data.nb_participants =
      r.synchronized_data.max_participants)
    (_hpos : 0 < numErrors r.collection)
    (hlt : numErrors r.collection < r.synchronized_data.nb_participants)
    (first : String × TaskExecutionAbciPayload)
    (rest : List (String × TaskExecutionAbciPayload)) (rid : String)
    (trs : List String)
    (hok : okPayloads r.collection = first :: rest)
    (hrid : loadsRequestId first.2.content = some rid)
    (htrs : collectTaskResults (okPayloads r.collection) = some trs) :
    endBlock r =
      Except.ok
        (some (r.synchronized_data.update
          { request_id := rid, task_result := trs }, Event.DONE)) ∧
    trs.length =
      r.synchronized_data.nb_participants - numErrors r.collection := by
  have hne : numErrors r.collection ≠ r.synchronized_data.max_participants :=
    by omega
  have hlen : r.collection.length = r.synchronized_data.nb_participants := by
    simpa [collectionThresholdReached] using hth
  constructor
  · have htrs' : collectTaskResults (first :: rest) = some trs := hok ▸ htrs
    simp only [endBlock, hth, if_true]
    rw [if_neg (by simpa using hne), hok]
    simp [hrid, htrs']
  · have hpart := numErrors_add_okPayloads_length r.collection
    have := collectTaskResults_length _ _ htrs
    omega

/-- Witness for C2: three participants, one error sentinel and two ok
envelopes carrying the same request id. -/
theorem c2_partial_success_witness :
    endBlock
      { collection :=
          [("a", { content := Content.json (some "r1") (some "x1") }),
           ("b", { content := Content.errorSentinel }),
           ("c", { content := Content.json (some "r1") (some "x2") })],
        synchronized_data :=
          { nb_participants := 3, max_participants := 3,
            finished_task_data := none, other_data := [] },
        is_majority_possible := true } =
      Except.ok
        (some
          ({ nb_participants := 3, max_participants := 3,
             finished_task_data :=
               some { request_id := "r1", task_result := ["x1", "x2"] },
             other_data := [] },
           Event.DONE)) ∧
    (["x1", "x2"] : List String).length = 3 - 1 :=
  c2_partial_success _ (by decide) rfl (by decide) (by decide)
    ("a", { content := Content.json (some "r1") (some "x1") })
    [("c", { content := Content.json (some "r1") (some "x2") })]
    "r1" ["x1", "x2"] rfl rfl rfl

/-- C3: when fewer than `nb_participants` participants have submitted and a
majority outcome is no longer possible, `end_block` returns `NO_MAJORITY`
with the snapshot unchanged, without waiting for a timeout. -/
theorem c3_no_majority (r : TaskExecutionRound)
    (hlen : r.collection.length < r.synchronized_data.nb_participants)
    (hmaj : r.is_majority_possible = false) :
    endBlock r =
      Except.ok (some (r.synchronized_data, Event.NO_MAJORITY)) := by
  have hth : collectionThresholdReached r = false := by
    simp [collectionThresholdReached]
    omega
  simp [endBlock, hth, hmaj]

/-- Witness for C3: one of four participants submitted and a majority is
infeasible. -/
theorem c3_no_majority_witness :
    endBlock
      { collection := [("a", { content := Content.errorSentinel })],
        synchronized_data :=
          { nb_participants := 4, max_participants := 4,
            finished_task_data := none, other_data := [] },
        is_majority_possible := false } =
      Except.ok
        (some
          ({ nb_participants := 4, max_participants := 4,
             finished_task_data := none, other_data := [] },
           Event.NO_MAJORITY)) :=
  c3_no_majority _ (by decide) rfl

/-- C4: when fewer than `nb_participants` participants have submitted and a
majority outcome is still possible, `end_block` returns no event (`None`),
leaving the round pending. -/
theorem c4_pending (r : TaskExecutionRound)
    (hlen : r.collection.length < r.synchronized_data.nb_participants)
    (hmaj : r.is_majority_possible = true) :
    endBlock r = Except.ok none := by
  have hth : collectionThresholdReached r = false := by
    simp [collectionThresholdReached]
    omega
  simp [endBlock, hth, hmaj]

/-- Witness for C4: two of four participants submitted and a majority is
still feasible. -/
theorem c4_pending_witness :
    endBlock
      { collection :=
          [("a", { content := Content.json (some "r1") (some "x1") }),
           ("b", { content := Content.json (some "r1") (some "x2") })],
        synchronized_data :=
          { nb_participants := 4, max_participants := 4,
            finished_task_data := none, other_data := [] },
        is_majority_possible := true } =
      Except.ok none :=
  c4_pending _ (by decide) rfl

/-- C5: the round transition function is exactly the four-row table for
`TaskExecutionRound` with `DONE ↦ FinishedTaskExecutionRound`,
`NO_MAJORITY ↦ TaskExecutionRound`, `ROUND_TIMEOUT ↦ TaskExecutionRound`,
`ERROR ↦ FinishedTaskExecutionWithErrorRound`; `TaskExecutionRound` is the
unique initial round and the two finished rounds are terminal with no
outgoing transitions. -/
theorem c5_transition_table :
    transitionFunction AppState.taskExecutionRound Event.DONE =
      some AppState.finishedTaskExecutionRound ∧
    transitionFunction AppState.taskExecutionRound Event.NO_MAJORITY =
      some AppState.taskExecutionRound ∧
    transitionFunction AppState.taskExecutionRound Event.ROUND_TIMEOUT =
      some AppState.taskExecutionRound ∧
    transitionFunction AppState.taskExecutionRound Event.ERROR =
      some AppState.finishedTaskExecutionWithErrorRound ∧
    transitionFunction AppState.finishedTaskExecutionRound Event.DONE =
      none ∧
    transitionFunction AppState.finishedTaskExecutionRound
      Event.NO_MAJORITY = none ∧
    transitionFunction AppState.finishedTaskExecutionRound
      Event.ROUND_TIMEOUT = none ∧
    transitionFunction AppState.finishedTaskExecutionRound Event.ERROR =
      none ∧
    transitionFunction AppState.finishedTaskExecutionWithErrorRound
      Event.DONE = none ∧
    transitionFunction AppState.finishedTaskExecutionWithErrorRound
      Event.NO_MAJORITY = none ∧
    transitionFunction AppState.finishedTaskExecutionWithErrorRound
      Event.ROUND_TIMEOUT = none ∧
    transitionFunction AppState.finishedTaskExecutionWithErrorRound
      Event.ERROR = none ∧
    initialRoundCls = AppState.taskExecutionRound ∧
    initialStates = [AppState.taskExecutionRound] ∧
    finalStates =
      [AppState.finishedTaskExecutionRound,
       AppState.finishedTaskExecutionWithErrorRound] := by
  decide

/-- C6: every evaluation leaves the input snapshot unmodified — the `ERROR`
and `NO_MAJORITY` outcomes return the input snapshot itself, and the `DONE`
outcome builds a new snapshot via `update` that differs from the input only
in the `finished_task_data` field, which it sets; the old snapshot remains
valid. -/
theorem c6_frame (r : TaskExecutionRound) (sd : SynchronizedData)
    (ev : Event) (h : endBlock r = Except.ok (some (sd, ev))) :
    (ev ≠ Event.DONE → sd = r.synchronized_data) ∧
    (ev = Event.DONE →
      sd.nb_participants = r.synchronized_data.nb_participants ∧
      sd.max_participants = r.synchronized_data.max_participants ∧
      sd.other_data = r.synchronized_data.other_data ∧
      ∃ d, sd.finished_task_data = some d) := by
  rcases endBlock_ok_cases r sd ev h with ⟨hev, hsd⟩ | ⟨hev, hsd⟩ |
    ⟨hev, d, hsd⟩
  · subst hev
    exact ⟨fun _ => hsd, fun hd => by cases hd⟩
  · subst hev
    exact ⟨fun _ => hsd, fun hd => by cases hd⟩
  · subst hev
    subst hsd
    exact ⟨fun hne => absurd rfl hne, fun _ => ⟨rfl, rfl, rfl, d, rfl⟩⟩

/-- The round of the C6 witness: one participant submitting an ok
envelope. -/
def c6Round : TaskExecutionRound :=
  { collection := [("a", { content := Content.json (some "r0") (some "y0") })],
    synchronized_data :=
      { nb_participants := 1, max_participants := 1,
        finished_task_data := none, other_data := [("k", "v")] },
    is_majority_possible := true }

/-- The snapshot `end_block` returns for the C6 witness round. -/
def c6Snapshot : SynchronizedData :=
  { nb_participants := 1, max_participants := 1,
    finished_task_data := some { request_id := "r0", task_result := ["y0"] },
    other_data := [("k", "v")] }

/-- Witness for C6: a successful one-participant round, whose output
snapshot keeps every field of the input except `finished_task_data`. -/
theorem c6_frame_witness :
    (Event.DONE ≠ Event.DONE → c6Snapshot = c6Round.synchronized_data) ∧
    (Event.DONE = Event.DONE →
      c6Snapshot.nb_participants =
        c6Round.synchronized_data.nb_participants ∧
      c6Snapshot.max_participants =
        c6Round.synchronized_data.max_participants ∧
      c6Snapshot.other_data = c6Round.synchronized_data.other_data ∧
      ∃ d, c6Snapshot.finished_task_data = some d) :=
  c6_frame c6Round c6Snapshot Event.DONE rfl

/-- C7, counterexample to the claim as stated: a collection in which the
threshold is reached, not every payload is the error sentinel, and a
non-error payload (the second one) fails to decode into an envelope
containing the `request_id` field — yet `end_block` returns `DONE` instead
of propagating an error, because the code only reads `request_id` from the
first ok payload. -/
theorem c7_counterexample :
    collectionThresholdReached
      { collection :=
          [("a", { content := Content.json (some "r1") (some "x1") }),
           ("b", { content := Content.json none (some "x2") })],
        synchronized_data :=
          { nb_participants := 2, max_participants := 2,
            finished_task_data := none, other_data := [] },
        is_majority_possible := true } = true ∧
    (∃ sp ∈
        ([("a",
            ({ content := Content.json (some "r1") (some "x1") } :
              TaskExecutionAbciPayload)),
          ("b", { content := Content.json none (some "x2") })] :
          List (String × TaskExecutionAbciPayload)),
      sp.2.content ≠ ERROR_PAYLOAD) ∧
    (∃ sp ∈ okPayloads
        ([("a",
            ({ content := Content.json (some "r1") (some "x1") } :
              TaskExecutionAbciPayload)),
          ("b", { content := Content.json none (some "x2") })] :
          List (String × TaskExecutionAbciPayload)),
      loadsRequestId sp.2.content = none) ∧
    endBlock
      { collection :=
          [("a", { content := Content.json (some "r1") (some "x1") }),
           ("b", { content := Content.json none (some "x2") })],
        synchronized_data :=
          { nb_participants := 2, max_participants := 2,
            finished_task_data := none, other_data := [] },
        is_majority_possible := true } =
      Except.ok
        (some
          ({ nb_participants := 2, max_participants := 2,
             finished_task_data :=
               some { request_id := "r1", task_result := ["x1", "x2"] },
             other_data := [] },
           Event.DONE)) := by
  refine ⟨rfl, ⟨("a", { content := Content.json (some "r1") (some "x1") }),
    by decide, by decide⟩,
    ⟨("b", { content := Content.json none (some "x2") }), by decide, rfl⟩,
    rfl⟩

/-- C7, amended: when the threshold is reached, the error count differs from
`max_participants`, and either the first-encountered non-error payload's
content fails to provide the `request_id` field or some non-error payload's
content fails to provide the `task_result` field, `end_block` propagates an
unrecoverable decode error to the caller instead of returning an event. -/
theorem c7_decode_failure (r : TaskExecutionRound)
    (hth : collectionThresholdReached r = true)
    (hne : numErrors r.collection ≠ r.synchronized_data.max_participants)
    (first : String × TaskExecutionAbciPayload)
    (rest : List (String × TaskExecutionAbciPayload))
    (hok : okPayloads r.collection = first :: rest)
    (hfail : loadsRequestId first.2.content = none ∨
      ∃ sp ∈ okPayloads r.collection,
        loadsTaskResult sp.2.content = none) :
    endBlock r = Except.error RoundError.keyOrDecodeError := by
  simp only [endBlock, hth, if_true]
  rw [if_neg (by simpa using hne), hok]
  rcases hfail with hf | ⟨sp, hmem, hf⟩
  · simp [hf]
  · have hnone : collectTaskResults (first :: rest) = none :=
      hok ▸ collectTaskResults_none_of_mem (okPayloads r.collection) sp hmem hf
    cases hr : loadsRequestId first.2.content with
    | none => simp [hr]
    | some rid => simp [hr, hnone]

/-- Witness for the amended C7: one ok payload whose content is not valid
JSON, alongside one error sentinel. -/
theorem c7_decode_failure_witness :
    endBlock
      { collection :=
          [("a", { content := Content.invalid }),
           ("b", { content := Content.errorSentinel })],
        synchronized_data :=
          { nb_participants := 2, max_participants := 2,
            finished_task_data := none, other_data := [] },
        is_majority_possible := true } =
      Except.error RoundError.keyOrDecodeError :=
  c7_decode_failure _ rfl (by decide) ("a", { content := Content.invalid })
    [] rfl (Or.inl rfl)

/-- C8: `end_block` is deterministic — two rounds with the same collection
(in the same insertion order), the same synchronized data and the same
majority-feasibility verdict evaluate to the same result; in particular the
same unresolved ledger re-evaluated without new submissions yields the same
outcome. -/
theorem c8_deterministic (r₁ r₂ : TaskExecutionRound)
    (hc : r₁.collection = r₂.collection)
    (hs : r₁.synchronized_data = r₂.synchronized_data)
    (hm : r₁.is_majority_possible = r₂.is_majority_possible) :
    endBlock r₁ = endBlock r₂ := by
  cases r₁
  cases r₂
  dsimp only at hc hs hm
  subst hc
  subst hs
  subst hm
  rfl

/-- Witness for C8: two identical unresolved two-of-four ledgers evaluate
identically. -/
theorem c8_deterministic_witness :
    endBlock
      { collection := [("a", { content := Content.json (some "r1") (some "x1") })],
        synchronized_data :=
          { nb_participants := 4, max_participants := 4,
            finished_task_data := none, other_data := [] },
        is_majority_possible := true } =
    endBlock
      { collection := [("a", { content := Content.json (some "r1") (some "x1") })],
        synchronized_data :=
          { nb_participants := 4, max_participants := 4,
            finished_task_data := none, other_data := [] },
        is_majority_possible := true } :=
  c8_deterministic _ _ rfl rfl rfl

/-- C9: in the threshold-reached branch with the error count different from
`max_participants`, the indexing of the first non-error payload is safe if
and only if some collected payload differs from the error sentinel: if every
collected payload is the sentinel (possible with the count differing from
`max_participants` whenever `nb_participants` differs from it),
`end_block` fails with an index error on the empty ok-payload mapping
instead of returning an event; otherwise no index error can occur. -/
theorem c9_index_error (r : TaskExecutionRound)
    (hth : collectionThresholdReached r = true)
    (hne : numErrors r.collection ≠ r.synchronized_data.max_participants) :
    ((∀ sp ∈ r.collection, sp.2.content = ERROR_PAYLOAD) →
      endBlock r = Except.error RoundError.indexError) ∧
    ((∃ sp ∈ r.collection, sp.2.content ≠ ERROR_PAYLOAD) →
      endBlock r ≠ Except.error RoundError.indexError) := by
  constructor
  · intro hall
    have hnil := okPayloads_eq_nil_of_all_error r.collection hall
    simp only [endBlock, hth, if_true]
    rw [if_neg (by simpa using hne), hnil]
  · rintro ⟨sp, hmem, hok⟩
    have hnn := okPayloads_ne_nil_of_exists_ok r.collection sp hmem hok
    simp only [endBlock, hth, if_true]
    rw [if_neg (by simpa using hne)]
    cases hcase : okPayloads r.collection with
    | nil => exact absurd hcase hnn
    | cons f tail =>
      cases hr : loadsRequestId f.2.content with
      | none => simp [hr]
      | some rid =>
        cases ht : collectTaskResults (f :: tail) with
        | none => simp [hr, ht]
        | some trs => simp [hr, ht]

/-- Witness for C9: two participants both submit the sentinel while
`max_participants` is three, so the error count misses the unanimity check
and the empty ok-payload mapping is indexed. -/
theorem c9_index_error_witness :
    endBlock
      { collection :=
          [("a", { content := Content.errorSentinel }),
           ("b", { content := Content.errorSentinel })],
        synchronized_data :=
          { nb_participants := 2, max_participants := 3,
            finished_task_data := none, other_data := [] },
        is_majority_possible := true } =
      Except.error RoundError.indexError :=
  (c9_index_error
    { collection :=
        [("a", { content := Content.errorSentinel }),
         ("b", { content := Content.errorSentinel })],
      synchronized_data :=
        { nb_participants := 2, max_participants := 3,
          finished_task_data := none, other_data := [] },
      is_majority_possible := true }
    rfl (by decide)).1 (by decide)

/-- C10: `end_block` never returns the `ROUND_TIMEOUT` event — every
resolving evaluation yields `DONE`, `ERROR` or `NO_MAJORITY` — and the
application's `event_to_timeout` table is empty, so a timeout event can only
be injected from outside this core. -/
theorem c10_no_round_timeout :
    (∀ (r : TaskExecutionRound) (sd : SynchronizedData) (ev : Event),
      endBlock r = Except.ok (some (sd, ev)) →
        ev = Event.DONE ∨ ev = Event.ERROR ∨ ev = Event.NO_MAJORITY) ∧
    eventToTimeout = [] := by
  refine ⟨fun r sd ev h => ?_, rfl⟩
  rcases endBlock_ok_cases r sd ev h with ⟨hev, _⟩ | ⟨hev, _⟩ | ⟨hev, _⟩
  · exact Or.inr (Or.inl hev)
  · exact Or.inr (Or.inr hev)
  · exact Or.inl hev

/-- Witness for C10: the unanimous-error round resolves with an event among
the three that `end_block` can produce. -/
theorem c10_no_round_timeout_witness :
    Event.ERROR = Event.DONE ∨ Event.ERROR = Event.ERROR ∨
      Event.ERROR = Event.NO_MAJORITY :=
  c10_no_round_timeout.1
    { collection := [("a", { content := Content.errorSentinel })],
      synchronized_data :=
        { nb_participants := 1, max_participants := 1,
          finished_task_data := none, other_data := [] },
      is_majority_possible := true }
    { nb_participants := 1, max_participants := 1,
      finished_task_data := none, other_data := [] }
    Event.ERROR rfl

end TaskExecutionAbci
